import Mathlib

/-!
Shallow embedding of the Gov PM Translator core (src/src/App.tsx):
the dictionary classifier `analyzeTextStandard`, the remote classifier
`callGeminiAPI` (with the network and JSON.parse outcomes made explicit
as an environment value), the batch pipeline `processTranslation`, and
the result-screen reset handler of the `App` component.

Strings are modelled as Lean `String`; text processing (trim, lower-case,
substring search, code-fence stripping) is carried out on the underlying
character list `String.data`, mirroring the JavaScript string primitives
the source uses.
-/

namespace GovPM

/-- The icon identifiers that occur in the source (`lucide-react` imports
used by the classifier results).  The renderer component itself is out of
scope; only the identity of the chosen icon matters. -/
inductive IconKind where
  | AlertTriangle
  | Users
  | FileTextIcon
  | ShieldCheck
  | Layers
  | Zap
  | Briefcase
  | AlertCircle
  | XCircle
  deriving DecidableEq, Repr

/-- `SkillCategory` from App.tsx.  In JavaScript the fields `label` and
`text` can hold `undefined` at runtime (e.g. when the parsed JSON reply
lacks them), so they are modelled as `Option String`; `isError?` is an
optional boolean whose absence reads as `false`, modelled as `Bool`. -/
structure SkillCategory where
  label : Option String
  text : Option String
  icon : IconKind
  color : String
  bg : String
  isError : Bool
  deriving DecidableEq, Repr

/-- `DebugLog` from App.tsx: the exchange record of one remote call. -/
structure DebugLog where
  prompt : String
  input : String
  response : String
  deriving DecidableEq, Repr

/-- Characters removed by `String.prototype.trim` (modelled for the ASCII
whitespace characters). -/
def jsWhitespace (c : Char) : Bool :=
  c = ' ' || c = '\t' || c = '\n' || c = '\r'

/-- `trim`: drop whitespace from both ends of a character list. -/
def trimChars (l : List Char) : List Char :=
  ((l.dropWhile jsWhitespace).reverse.dropWhile jsWhitespace).reverse

/-- `inputText.trim().toLowerCase()` — the normalisation performed at the
top of `analyzeTextStandard`. -/
def normalize (s : String) : List Char :=
  (trimChars s.data).map Char.toLower

/-- `text.includes(pat)`: `pat` occurs as a contiguous substring of
`text`. -/
def isSubstring (pat : List Char) : List Char → Bool
  | [] => pat.isEmpty
  | c :: cs => pat.isPrefixOf (c :: cs) || isSubstring pat cs

/-- `text.includes(k)` for a normalised text and a dictionary keyword. -/
def includes (text : List Char) (key : String) : Bool :=
  isSubstring key.data text

/-- One entry of the `dictionary` rule table in `analyzeTextStandard`. -/
structure DictRule where
  keys : List String
  label : String
  text : String
  icon : IconKind
  color : String
  bg : String
  deriving DecidableEq, Repr

/-- The ordered rule table of `analyzeTextStandard`, transcribed from
App.tsx lines 51-58. -/
def dictionary : List DictRule :=
  [ { keys := ["怒", "クレーム", "苦情", "謝", "詫", "トラブル", "事故", "緊急"],
      label := "クライシスマネジメント",
      text := "不測の事態における迅速な課題解決とリスク極小化",
      icon := .AlertTriangle, color := "text-red-600", bg := "bg-red-50" },
    { keys := ["調整", "合意", "相談", "依頼", "電話", "メール", "会議", "説明", "窓口", "対応"],
      label := "ステークホルダーマネジメント",
      text := "多様な関係者との利害調整および合意形成のリード",
      icon := .Users, color := "text-blue-600", bg := "bg-blue-50" },
    { keys := ["企画", "案", "立案", "仕様", "要件", "検討", "決", "ルール", "方針"],
      label := "プロジェクト計画・構想",
      text := "実現可能性を考慮した業務要件定義および実装計画の策定",
      icon := .FileTextIcon, color := "text-purple-600", bg := "bg-purple-50" },
    { keys := ["チェック", "確認", "ミス", "修正", "校正", "テスト", "検算", "監査"],
      label := "品質管理 (QA/QC)",
      text := "成果物の品質基準策定および厳格な検証プロセスの遂行",
      icon := .ShieldCheck, color := "text-emerald-600", bg := "bg-emerald-50" },
    { keys := ["日程", "スケジュール", "納期", "期限", "進行", "管理", "段取り", "工程"],
      label := "工程管理 (Time Mgmt)",
      text := "WBSに基づく厳密な進捗管理とリソースの最適配分",
      icon := .Layers, color := "text-orange-600", bg := "bg-orange-50" },
    { keys := ["データ", "集計", "入力", "エクセル", "数字", "分析", "計算", "システム"],
      label := "データドリブン・オペレーション",
      text := "定量的データに基づく業務プロセスの可視化と効率化",
      icon := .Zap, color := "text-yellow-600", bg := "bg-yellow-50" } ]

/-- `cat.keys.some(k => text.includes(k))`: the loop guard of
`analyzeTextStandard`. -/
def matchesRule (text : List Char) (r : DictRule) : Bool :=
  r.keys.any (fun k => includes text k)

/-- `return { ...cat }`: the result built from a matched rule.  The spread
copies the rule fields; `isError` is absent, i.e. `false`. -/
def ruleCategory (r : DictRule) : SkillCategory :=
  { label := some r.label, text := some r.text, icon := r.icon,
    color := r.color, bg := r.bg, isError := false }

/-- The fallback category returned when no rule matches
(App.tsx lines 66-72). -/
def fallbackCategory : SkillCategory :=
  { label := some "ジェネラル・アドミニストレーション",
    text := some "組織運営を円滑化するための定常業務の確実な遂行",
    icon := .Briefcase, color := "text-slate-500", bg := "bg-slate-50",
    isError := false }

/-- `analyzeTextStandard` from App.tsx: normalise, scan the rule table in
declaration order, return the first matching rule's category, else the
fallback. -/
def analyzeTextStandard (inputText : String) : SkillCategory :=
  match dictionary.find? (fun cat => matchesRule (normalize inputText) cat) with
  | some cat => ruleCategory cat
  | none => fallbackCategory

/-- The model name constant from App.tsx. -/
def GEMINI_MODEL : String := "gemini-2.5-flash-lite"

/-- The fixed instruction template `SYSTEM_PROMPT` from App.tsx (braces and
the apostrophe written as character escapes). -/
def SYSTEM_PROMPT : String :=
  "\nYou are an expert Project Manager.\nAnalyze the user\x27s task description and map it to a PMBOK Knowledge Area.\nReturn ONLY a JSON object with the following structure (no markdown):\n\x7b\n  \"label\": \"Professional PM Term (e.g. Stakeholder Management)\",\n  \"text\": \"A professional description in Japanese (approx 30 chars)\",\n  \"iconKey\": \"One of: AlertTriangle, Users, FileText, ShieldCheck, Layers, Zap, Briefcase\"\n\x7d\n"

/-- `ICON_MAP` from App.tsx: the allow-list from icon-key strings to
icons. -/
def ICON_MAP : List (String × IconKind) :=
  [ ("AlertTriangle", .AlertTriangle), ("Users", .Users),
    ("FileText", .FileTextIcon), ("ShieldCheck", .ShieldCheck),
    ("Layers", .Layers), ("Zap", .Zap), ("Briefcase", .Briefcase),
    ("AlertCircle", .AlertCircle) ]

/-- `ICON_MAP[k]`: property lookup, `none` on a miss. -/
def iconLookup (k : String) : Option IconKind :=
  (ICON_MAP.find? (fun p => p.1 = k)).map Prod.snd

/-- `ICON_MAP[parsed.iconKey] || Briefcase`: an absent or unrecognised
icon key falls back to the default icon. -/
def geminiIcon (iconKey : Option String) : IconKind :=
  match iconKey with
  | none => .Briefcase
  | some k => (iconLookup k).getD .Briefcase

/-- The `error` object of an upstream error reply (`data.error`), with its
optional `message` field. -/
structure GeminiErrorObj where
  message : Option String
  deriving DecidableEq, Repr

/-- One element of `candidates[0].content.parts`. -/
structure GeminiPart where
  text : Option String
  deriving DecidableEq, Repr

/-- `candidates[0].content`. -/
structure GeminiContent where
  parts : Option (List GeminiPart)
  deriving DecidableEq, Repr

/-- One element of `data.candidates`. -/
structure GeminiCandidate where
  content : Option GeminiContent
  deriving DecidableEq, Repr

/-- The JSON body returned by the service (`data`), with every field
optional, as in JSON. -/
structure GeminiData where
  error : Option GeminiErrorObj
  candidates : Option (List GeminiCandidate)
  deriving DecidableEq, Repr

/-- `data.candidates?.[0]?.content?.parts?.[0]?.text`: the fixed nested
path at which the generated text is expected; each `?.` (and each
out-of-range index) propagates absence. -/
def contentOf (d : GeminiData) : Option String :=
  ((((d.candidates.bind List.head?).bind GeminiCandidate.content).bind
      GeminiContent.parts).bind List.head?).bind GeminiPart.text

/-- The object produced by `JSON.parse` of the cleaned reply, projected to
the three fields the code reads; each may be absent. -/
structure ParsedReply where
  label : Option String
  text : Option String
  iconKey : Option String
  deriving DecidableEq, Repr

/-- Outcome of `JSON.parse` on a given string: a parsed object, or a
thrown `SyntaxError` with a message. -/
inductive ParseOutcome where
  | ok (p : ParsedReply)
  | fail (msg : String)
  deriving DecidableEq, Repr

/-- The external world one remote call interacts with: either the
`fetch`/`response.json()` round trip rejects (network or transport
failure, message of the thrown error), or it yields a JSON body together
with the behaviour of `JSON.parse` on whatever string the code later
parses. -/
inductive RemoteWorld where
  | netError (msg : String)
  | response (data : GeminiData) (parse : String → ParseOutcome)

/-- `m || dflt` on an optional string: JavaScript `||` treats an absent or
empty message as falsy. -/
def jsOrDefault (m : Option String) (dflt : String) : String :=
  match m with
  | none => dflt
  | some s => if s = "" then dflt else s

/-- `s.replace(pat, "")` for a global plain-text pattern: remove every
(left-to-right, non-overlapping) occurrence of `pat`. -/
def removeAll (pat : List Char) (l : List Char) : List Char :=
  match l with
  | [] => []
  | c :: cs =>
    if h : pat ≠ [] ∧ pat.isPrefixOf (c :: cs) then
      removeAll pat ((c :: cs).drop pat.length)
    else
      c :: removeAll pat cs
termination_by l.length
decreasing_by
  · simp only [List.length_drop, List.length_cons]
    have hp : 0 < pat.length := List.length_pos.mpr h.1
    omega
  · simp

/-- `content.replace(/```json/g, "").replace(/```/g, "").trim()`: the
code-fence stripping applied to the service reply before `JSON.parse`. -/
def cleanFences (content : String) : String :=
  ⟨trimChars (removeAll "```".data (removeAll "```json".data content.data))⟩

/-- `JSON.stringify` on a string value (modelled for the common escape
characters). -/
def jsonEscapeChar (c : Char) : List Char :=
  if c = '"' then ['\\', '"']
  else if c = '\\' then ['\\', '\\']
  else if c = '\n' then ['\\', 'n']
  else if c = '\t' then ['\\', 't']
  else if c = '\r' then ['\\', 'r']
  else [c]

/-- `JSON.stringify(e.message)`: quote and escape the error message. -/
def jsonStringify (s : String) : String :=
  ⟨'"' :: (s.data.flatMap jsonEscapeChar ++ ['"'])⟩

/-- The `try` body of `callGeminiAPI`: each `throw` becomes `.error` with
the thrown error's message.  In order: a rejected fetch/json round trip;
`if (data.error) throw new Error(data.error.message || "API Error")`;
`if (!content) throw new Error("No content generated")` (absent or empty
content); a `JSON.parse` failure on the cleaned reply.  On success it
returns the result/log pair built from the parsed fields. -/
def callGeminiBody (text : String) (world : RemoteWorld) :
    Except String (SkillCategory × DebugLog) :=
  match world with
  | .netError msg => .error msg
  | .response data parse =>
    match data.error with
    | some e => .error (jsOrDefault e.message "API Error")
    | none =>
      match contentOf data with
      | none => .error "No content generated"
      | some content =>
        if content = "" then .error "No content generated"
        else
          match parse (cleanFences content) with
          | .fail msg => .error msg
          | .ok parsed =>
            .ok ({ label := parsed.label, text := parsed.text,
                   icon := geminiIcon parsed.iconKey,
                   color := "text-indigo-600", bg := "bg-indigo-50",
                   isError := false },
                 { prompt := SYSTEM_PROMPT, input := text,
                   response := cleanFences content })

/-- `callGeminiAPI` from App.tsx: run the `try` body; the `catch` block
converts any thrown error into a displayable error result plus an
exchange record, and the function itself never throws.  The `apiKey`
only enters the request URL, whose outcome is abstracted by `world`. -/
def callGeminiAPI (text : String) (apiKey : String) (world : RemoteWorld) :
    SkillCategory × DebugLog :=
  match callGeminiBody text world with
  | .ok r => r
  | .error msg =>
    ({ label := some "API Error", text := some ("接続失敗: " ++ msg),
       icon := .XCircle, color := "text-red-500", bg := "bg-red-50",
       isError := true },
     { prompt := SYSTEM_PROMPT, input := text,
       response := jsonStringify msg })

/-- The failure cases enumerated for the remote classifier: a network or
transport error, an upstream error object in the reply, missing (or
empty) content at the fixed nested path, or a reply whose cleaned text
does not parse as JSON. -/
def failsRemotely : RemoteWorld → Prop
  | .netError _ => True
  | .response data parse =>
      data.error ≠ none ∨
      contentOf data = none ∨
      contentOf data = some "" ∨
      (∃ content, contentOf data = some content ∧
        ∃ m, parse (cleanFences content) = .fail m)

/-- The mapped remote calls of `processTranslation` in AI mode
(`inputs.map(input => callGeminiAPI(input, apiKey))`), with the world of
each request indexed by its position in the input list; the recursion
carries the index of the head request. -/
def runFrom (apiKey : String) (worlds : Nat → RemoteWorld) :
    Nat → List String → List (SkillCategory × DebugLog)
  | _, [] => []
  | i, input :: rest =>
    callGeminiAPI input apiKey (worlds i) :: runFrom apiKey worlds (i + 1) rest

/-- The settled values of the request promises issued by
`processTranslation` in AI mode, in input order. -/
def runRemoteBatch (inputs : List String) (apiKey : String)
    (worlds : Nat → RemoteWorld) : List (SkillCategory × DebugLog) :=
  runFrom apiKey worlds 0 inputs

/-- The AI-mode branch of `processTranslation`: await all requests, then
split the raw results into `aiResults` and `debugLogs`. -/
def processTranslationAI (inputs : List String) (apiKey : String)
    (worlds : Nat → RemoteWorld) : List SkillCategory × List DebugLog :=
  let rawResults := runRemoteBatch inputs apiKey worlds
  (rawResults.map Prod.fst, rawResults.map Prod.snd)

/-- The standard-mode branch of `processTranslation`:
`inputs.map(input => analyzeTextStandard(input))`. -/
def processTranslationStandard (inputs : List String) : List SkillCategory :=
  inputs.map analyzeTextStandard

/-- One settlement event of the `Promise.all` fan-in: when the promise at
index `i` settles, its value is written into slot `i` of the pending
result array; indices outside the batch write nothing. -/
def settleStep (vals : List α) (slots : List (Option α)) (i : Nat) :
    List (Option α) :=
  match vals[i]? with
  | some v => slots.set i (some v)
  | none => slots

/-- Operational model of `Promise.all`'s result collection: starting from
an array of unfilled slots, process the settlement events in an arbitrary
completion order `order`; each event stores its promise's value at that
promise's own index. -/
def settleAll (vals : List α) (order : List Nat) : List (Option α) :=
  order.foldl (settleStep vals) (List.replicate vals.length none)

/-- A concrete well-formed service reply body: no error object, one
candidate whose first part carries the text "reply". -/
def sampleReplyData : GeminiData :=
  { error := none,
    candidates := some [{ content := some { parts := some [{ text := some "reply" }] } }] }

/-- The two UI modes. -/
inductive Mode where
  | standard
  | ai
  deriving DecidableEq, Repr

/-- The React state of the `App` component (the `useState` hooks). -/
structure AppState where
  step : Nat
  mode : Mode
  apiKey : String
  inputs : List String
  currentInput : String
  aiResults : List SkillCategory
  debugLogs : List DebugLog
  isProcessing : Bool
  showDebug : Bool
  deriving DecidableEq, Repr

/-- The session-scoped credential store (`sessionStorage`), holding the
single key `gemini_api_key`. -/
structure SessionStore where
  geminiApiKey : Option String
  deriving DecidableEq, Repr

/-- The result-screen reset handler (App.tsx line 441):
`setInputs([]); setStep(0); setAiResults([]); setDebugLogs([])`.
No other state setter and no `sessionStorage` operation occurs in it. -/
def resetToStart (st : AppState) (store : SessionStore) :
    AppState × SessionStore :=
  ({ st with inputs := [], step := 0, aiResults := [], debugLogs := [] },
   store)

/-! ## Theorems -/

/-- `find?` returns the element at index `i` when that element satisfies
the predicate and every earlier element fails it. -/
theorem find_first {α : Type} (p : α → Bool) (l : List α) :
    ∀ (i : Nat) (hi : i < l.length), p l[i] = true →
      (∀ j (hj : j < l.length), j < i → p l[j] = false) →
      l.find? p = some l[i] := by
  induction l with
  | nil => intro i hi; simp at hi
  | cons a tl ih =>
    intro i hi hp hbefore
    cases i with
    | zero =>
      rw [List.getElem_cons_zero] at hp ⊢
      exact List.find?_cons_of_pos tl hp
    | succ k =>
      have ha : p a = false := by
        have h0 := hbefore 0 (by simp) (Nat.succ_pos k)
        rwa [List.getElem_cons_zero] at h0
      rw [List.find?_cons_of_neg tl (by simp [ha])]
      have hk : k < tl.length := by simpa using hi
      have hpk : p tl[k] = true := by
        rwa [List.getElem_cons_succ] at hp
      have hb : ∀ j (hj : j < tl.length), j < k → p tl[j] = false := by
        intro j hj hjk
        have hs := hbefore (j + 1) (by simpa using hj) (by omega)
        rwa [List.getElem_cons_succ] at hs
      rw [List.getElem_cons_succ]
      exact ih k hk hpk hb

/-- C1: for every input whose normalised text contains a trigger keyword
of rule `i` of the ordered rule table and no trigger keyword of any
earlier rule, `analyzeTextStandard` returns rule `i`'s label, description
and icon — the first matching rule in declaration order wins. -/
theorem claim_C1_first_matching_rule_wins (s : String) (i : Nat)
    (hi : i < dictionary.length)
    (hmatch : matchesRule (normalize s) dictionary[i] = true)
    (hbefore : ∀ j (hj : j < dictionary.length), j < i →
      matchesRule (normalize s) dictionary[j] = false) :
    analyzeTextStandard s = ruleCategory dictionary[i] := by
  unfold analyzeTextStandard
  rw [find_first (fun cat => matchesRule (normalize s) cat) dictionary i hi
    hmatch hbefore]

/-- Witness for C1: the input "電話" carries a keyword of rule 1
(stakeholder management) and no keyword of rule 0. -/
theorem claim_C1_witness :
    analyzeTextStandard "電話" = ruleCategory dictionary[1] :=
  claim_C1_first_matching_rule_wins "電話" 1 (by decide) (by decide)
    (by decide)

/-- C4: an input whose normalised text contains no trigger keyword of any
rule resolves to the fixed fallback category (general administration),
with `isError = false` — never an error. -/
theorem claim_C4_no_match_gives_fallback (s : String)
    (h : ∀ r ∈ dictionary, ∀ k ∈ r.keys, includes (normalize s) k = false) :
    analyzeTextStandard s = fallbackCategory ∧
    fallbackCategory.label = some "ジェネラル・アドミニストレーション" ∧
    fallbackCategory.isError = false := by
  refine ⟨?_, rfl, rfl⟩
  unfold analyzeTextStandard
  have hnone : dictionary.find? (fun cat => matchesRule (normalize s) cat) = none := by
    rw [List.find?_eq_none]
    intro r hr hcontra
    simp only [matchesRule, List.any_eq_true] at hcontra
    obtain ⟨k, hk, hinc⟩ := hcontra
    rw [h r hr k hk] at hinc
    exact Bool.false_ne_true hinc
  rw [hnone]

/-- Witness for C4: a whitespace-only input matches no keyword and
resolves to the fallback category. -/
theorem claim_C4_witness :
    analyzeTextStandard "  " = fallbackCategory ∧
    fallbackCategory.label = some "ジェネラル・アドミニストレーション" ∧
    fallbackCategory.isError = false :=
  claim_C4_no_match_gives_fallback "  " (by decide)

/-- C8: concrete classifier runs — "クレーム対応" is labelled
"クライシスマネジメント"; "進行管理" hits the scheduling rule (index 4,
"工程管理 (Time Mgmt)"), the earliest rule whose keywords occur in it;
"xyz123" falls back to the general-administration category. -/
theorem claim_C8_concrete_scenarios :
    (analyzeTextStandard "クレーム対応").label = some "クライシスマネジメント" ∧
    analyzeTextStandard "進行管理" = ruleCategory dictionary[4] ∧
    (analyzeTextStandard "進行管理").label = some "工程管理 (Time Mgmt)" ∧
    analyzeTextStandard "xyz123" = fallbackCategory := by
  refine ⟨by decide, by decide, by decide, by decide⟩

/-- C9: inputs that agree after trimming surrounding whitespace and
lower-casing every character (i.e. differ only by letter case and/or
leading and trailing whitespace) classify identically. -/
theorem claim_C9_case_trim_insensitive (s1 s2 : String)
    (h : (trimChars s1.data).map Char.toLower =
         (trimChars s2.data).map Char.toLower) :
    analyzeTextStandard s1 = analyzeTextStandard s2 := by
  have hn : normalize s1 = normalize s2 := h
  unfold analyzeTextStandard
  rw [hn]

/-- Witness for C9: a padded input and an upper-cased input classify the
same as their plain forms. -/
theorem claim_C9_witness :
    analyzeTextStandard "  クレーム対応  " = analyzeTextStandard "クレーム対応" ∧
    analyzeTextStandard " ABC " = analyzeTextStandard "abc" :=
  ⟨claim_C9_case_trim_insensitive "  クレーム対応  " "クレーム対応" (by decide),
   claim_C9_case_trim_insensitive " ABC " "abc" (by decide)⟩

/-- C2: `callGeminiAPI` never throws (it is a total function of the
world); on any failure — network error, upstream error object, missing
content at the nested path, or a malformed JSON reply — it returns a
result with `isError = true`, label fixed to "API Error", a non-empty
description embedding the failure reason, and an exchange record holding
the prompt, the input and the stringified error. -/
theorem claim_C2_remote_failure_contained (text apiKey : String)
    (world : RemoteWorld) (h : failsRemotely world) :
    ∃ msg, callGeminiBody text world = .error msg ∧
      callGeminiAPI text apiKey world =
        ({ label := some "API Error", text := some ("接続失敗: " ++ msg),
           icon := .XCircle, color := "text-red-500", bg := "bg-red-50",
           isError := true },
         { prompt := SYSTEM_PROMPT, input := text,
           response := jsonStringify msg }) ∧
      ("接続失敗: " ++ msg) ≠ "" := by
  have herr : ∃ msg, callGeminiBody text world = .error msg := by
    cases world with
    | netError m => exact ⟨m, rfl⟩
    | response data parse =>
      match hde : data.error with
      | some e =>
        exact ⟨jsOrDefault e.message "API Error",
          by simp only [callGeminiBody, hde]⟩
      | none =>
        match hc : contentOf data with
        | none =>
          exact ⟨"No content generated", by simp only [callGeminiBody, hde, hc]⟩
        | some content =>
          by_cases hce : content = ""
          · subst hce
            exact ⟨"No content generated", by simp [callGeminiBody, hde, hc]⟩
          · rcases h with h1 | h2 | h3 | h4
            · exact absurd hde h1
            · rw [hc] at h2; exact absurd h2 (by simp)
            · rw [hc] at h3
              exact absurd (Option.some_injective _ h3) hce
            · obtain ⟨c, hc2, m, hm⟩ := h4
              rw [hc] at hc2
              obtain rfl : content = c := Option.some_injective _ hc2
              exact ⟨m, by simp only [callGeminiBody, hde, hc, if_neg hce, hm]⟩
  obtain ⟨msg, hmsg⟩ := herr
  refine ⟨msg, hmsg, ?_, ?_⟩
  · unfold callGeminiAPI
    rw [hmsg]
  · intro hcontra
    have hlen := congrArg String.length hcontra
    rw [String.length_append] at hlen
    have hsix : ("接続失敗: " : String).length = 6 := rfl
    have hzero : ("" : String).length = 0 := rfl
    omega

/-- Witness for C2: a rejected network round trip yields the contained
error result. -/
theorem claim_C2_witness :
    ∃ msg, callGeminiBody "t" (.netError "boom") = .error msg ∧
      callGeminiAPI "t" "k" (.netError "boom") =
        ({ label := some "API Error", text := some ("接続失敗: " ++ msg),
           icon := .XCircle, color := "text-red-500", bg := "bg-red-50",
           isError := true },
         { prompt := SYSTEM_PROMPT, input := "t",
           response := jsonStringify msg }) ∧
      ("接続失敗: " ++ msg) ≠ "" :=
  claim_C2_remote_failure_contained "t" "k" (.netError "boom") trivial

/-- C5: on a reply whose cleaned text parses as a JSON object with
`iconKey` "Users", `callGeminiAPI` yields a non-error result carrying the
parsed label and description and the `Users` icon; an `iconKey` outside
the allow-list (e.g. "Nonexistent") yields the default icon `Briefcase`,
still with no error. -/
theorem claim_C5_roundtrip (text apiKey : String) (data : GeminiData)
    (parse : String → ParseOutcome) (content : String)
    (lbl txt : Option String)
    (hde : data.error = none) (hc : contentOf data = some content)
    (hne : content ≠ "") :
    (parse (cleanFences content) = .ok ⟨lbl, txt, some "Users"⟩ →
      callGeminiAPI text apiKey (.response data parse) =
        ({ label := lbl, text := txt, icon := .Users,
           color := "text-indigo-600", bg := "bg-indigo-50",
           isError := false },
         { prompt := SYSTEM_PROMPT, input := text,
           response := cleanFences content })) ∧
    (parse (cleanFences content) = .ok ⟨lbl, txt, some "Nonexistent"⟩ →
      callGeminiAPI text apiKey (.response data parse) =
        ({ label := lbl, text := txt, icon := .Briefcase,
           color := "text-indigo-600", bg := "bg-indigo-50",
           isError := false },
         { prompt := SYSTEM_PROMPT, input := text,
           response := cleanFences content })) := by
  constructor
  · intro hp
    simp only [callGeminiAPI, callGeminiBody, hde, hc, if_neg hne, hp]
    rfl
  · intro hp
    simp only [callGeminiAPI, callGeminiBody, hde, hc, if_neg hne, hp]
    rfl

/-- Witness for C5: a concrete one-candidate reply, parsed as an object
with icon key "Users" and then with the unknown icon key "Nonexistent". -/
theorem claim_C5_witness :
    callGeminiAPI "t" "k"
        (.response sampleReplyData (fun _ => .ok ⟨some "X", some "Y", some "Users"⟩)) =
      ({ label := some "X", text := some "Y", icon := .Users,
         color := "text-indigo-600", bg := "bg-indigo-50", isError := false },
       { prompt := SYSTEM_PROMPT, input := "t",
         response := cleanFences "reply" }) ∧
    callGeminiAPI "t" "k"
        (.response sampleReplyData (fun _ => .ok ⟨some "X", some "Y", some "Nonexistent"⟩)) =
      ({ label := some "X", text := some "Y", icon := .Briefcase,
         color := "text-indigo-600", bg := "bg-indigo-50", isError := false },
       { prompt := SYSTEM_PROMPT, input := "t",
         response := cleanFences "reply" }) :=
  ⟨(claim_C5_roundtrip "t" "k" sampleReplyData
      (fun _ => .ok ⟨some "X", some "Y", some "Users"⟩) "reply"
      (some "X") (some "Y") rfl rfl (by decide)).1 rfl,
   (claim_C5_roundtrip "t" "k" sampleReplyData
      (fun _ => .ok ⟨some "X", some "Y", some "Nonexistent"⟩) "reply"
      (some "X") (some "Y") rfl rfl (by decide)).2 rfl⟩

/-- Counterexample to C6 as stated: a reply whose cleaned text parses as
a JSON object carrying none of the expected fields (`label`, `text`,
`iconKey` all absent) is NOT treated as a failure — the result has
`isError = false` and an absent label. -/
theorem claim_C6_counterexample :
    (callGeminiAPI "t" "k"
        (.response sampleReplyData (fun _ => .ok ⟨none, none, none⟩))).1.isError
      = false ∧
    (callGeminiAPI "t" "k"
        (.response sampleReplyData (fun _ => .ok ⟨none, none, none⟩))).1.label
      = none := by
  refine ⟨by decide, by decide⟩

/-- C6 amended: absence (or emptiness) of the content at the fixed nested
response path is treated as failure, but absence of the fields the parsed
JSON object is expected to carry is not — such a reply produces a
non-error result with absent label and description and the default
icon. -/
theorem claim_C6_amended_path_only (text apiKey : String) (data : GeminiData)
    (parse : String → ParseOutcome) :
    (data.error = none → contentOf data = none →
      (callGeminiAPI text apiKey (.response data parse)).1.isError = true) ∧
    (data.error = none → contentOf data = some "" →
      (callGeminiAPI text apiKey (.response data parse)).1.isError = true) ∧
    (∀ content, data.error = none → contentOf data = some content →
      content ≠ "" → parse (cleanFences content) = .ok ⟨none, none, none⟩ →
      (callGeminiAPI text apiKey (.response data parse)).1 =
        { label := none, text := none, icon := .Briefcase,
          color := "text-indigo-600", bg := "bg-indigo-50",
          isError := false }) := by
  refine ⟨?_, ?_, ?_⟩
  · intro hde hc
    simp only [callGeminiAPI, callGeminiBody, hde, hc]
  · intro hde hc
    simp [callGeminiAPI, callGeminiBody, hde, hc]
  · intro content hde hc hne hp
    simp only [callGeminiAPI, callGeminiBody, hde, hc, if_neg hne, hp]
    rfl

/-- Witness for the amended C6: a reply with no candidates fails; a
well-formed reply parsing to an object with all fields absent
succeeds with defaults. -/
theorem claim_C6_witness :
    (callGeminiAPI "t" "k"
        (.response { error := none, candidates := none }
          (fun _ => .ok ⟨none, none, none⟩))).1.isError = true ∧
    (callGeminiAPI "t" "k"
        (.response sampleReplyData (fun _ => .ok ⟨none, none, none⟩))).1 =
      { label := none, text := none, icon := .Briefcase,
        color := "text-indigo-600", bg := "bg-indigo-50",
        isError := false } :=
  ⟨(claim_C6_amended_path_only "t" "k" { error := none, candidates := none }
      (fun _ => .ok ⟨none, none, none⟩)).1 rfl rfl,
   (claim_C6_amended_path_only "t" "k" sampleReplyData
      (fun _ => .ok ⟨none, none, none⟩)).2.2 "reply" rfl rfl (by decide) rfl⟩

/-- The mapped request list has the same length as the input list. -/
theorem runFrom_length (apiKey : String) (worlds : Nat → RemoteWorld) :
    ∀ (start : Nat) (inputs : List String),
      (runFrom apiKey worlds start inputs).length = inputs.length := by
  intro start inputs
  induction inputs generalizing start with
  | nil => rfl
  | cons a tl ih => simp [runFrom, ih]

/-- Slot `j` of the mapped request list is exactly the call on input `j`
against the world assigned to position `start + j`. -/
theorem runFrom_getElem? (apiKey : String) (worlds : Nat → RemoteWorld) :
    ∀ (inputs : List String) (start j : Nat),
      (runFrom apiKey worlds start inputs)[j]? =
        (inputs[j]?).map
          (fun input => callGeminiAPI input apiKey (worlds (start + j))) := by
  intro inputs
  induction inputs with
  | nil => intro start j; simp [runFrom]
  | cons a tl ih =>
    intro start j
    cases j with
    | zero => simp [runFrom]
    | succ k =>
      simp only [runFrom, List.getElem?_cons_succ]
      rw [ih (start + 1) k]
      have harith : start + 1 + k = start + (k + 1) := by omega
      rw [harith]

/-- A settlement event whose promise exists stores its value. -/
theorem settleStep_of_some {α : Type} (vals : List α) (slots : List (Option α))
    (i : Nat) (v : α) (h : vals[i]? = some v) :
    settleStep vals slots i = slots.set i (some v) := by
  unfold settleStep
  rw [h]

/-- A settlement event for an index outside the batch writes nothing. -/
theorem settleStep_of_none {α : Type} (vals : List α) (slots : List (Option α))
    (i : Nat) (h : vals[i]? = none) :
    settleStep vals slots i = slots := by
  unfold settleStep
  rw [h]

/-- Length is preserved by one settlement event. -/
theorem settleStep_length {α : Type} (vals : List α) (slots : List (Option α))
    (i : Nat) : (settleStep vals slots i).length = slots.length := by
  unfold settleStep
  cases h : vals[i]? <;> simp

/-- After processing a list of settlement events, slot `j` holds promise
`j`'s value exactly when event `j` occurred (for a real index `j`); every
other slot is untouched — a settling promise can only ever write its own
slot. -/
theorem settle_foldl_getElem? {α : Type} (vals : List α) :
    ∀ (order : List Nat) (slots : List (Option α)) (j : Nat),
      slots.length = vals.length →
      (order.foldl (settleStep vals) slots)[j]? =
        if j ∈ order ∧ j < vals.length then (vals[j]?).map some
        else slots[j]? := by
  intro order
  induction order with
  | nil =>
    intro slots j hlen
    simp
  | cons i rest ih =>
    intro slots j hlen
    rw [List.foldl_cons,
      ih (settleStep vals slots i) j (by rw [settleStep_length, hlen])]
    by_cases hjr : j ∈ rest ∧ j < vals.length
    · rw [if_pos hjr, if_pos ⟨List.mem_cons.mpr (Or.inr hjr.1), hjr.2⟩]
    · rw [if_neg hjr]
      by_cases hji : j = i
      · by_cases hjn : j < vals.length
        · have hvj : vals[j]? = some vals[j] := List.getElem?_eq_getElem hjn
          have hset : (settleStep vals slots i)[j]? = some (some vals[j]) := by
            rw [← hji, settleStep_of_some vals slots j vals[j] hvj,
              List.getElem?_set, if_pos rfl, if_pos (by omega)]
          rw [hset, if_pos ⟨List.mem_cons.mpr (Or.inl hji), hjn⟩, hvj]
          rfl
        · have hvj : vals[j]? = none := List.getElem?_eq_none (by omega)
          have hset : (settleStep vals slots i)[j]? = slots[j]? := by
            rw [← hji, settleStep_of_none vals slots j hvj]
          rw [hset, if_neg (by tauto)]
      · have hset : (settleStep vals slots i)[j]? = slots[j]? := by
          cases hv : vals[i]? with
          | none => rw [settleStep_of_none vals slots i hv]
          | some v =>
            rw [settleStep_of_some vals slots i v hv, List.getElem?_set,
              if_neg (fun hh => hji hh.symm)]
        rw [hset]
        have hnot : ¬(j ∈ i :: rest ∧ j < vals.length) := by
          rintro ⟨hmem, hlt⟩
          rcases List.mem_cons.mp hmem with h1 | h2
          · exact hji h1
          · exact hjr ⟨h2, hlt⟩
        rw [if_neg hnot]

/-- If every promise of the batch settles, the collected array is the
index-aligned value sequence, whatever the completion order was. -/
theorem settleAll_covers {α : Type} (vals : List α) (order : List Nat)
    (hcover : ∀ i, i < vals.length → i ∈ order) :
    settleAll vals order = vals.map some := by
  apply List.ext_getElem?
  intro j
  rw [settleAll, settle_foldl_getElem? vals order _ j (by simp),
    List.getElem?_map]
  by_cases hj : j < vals.length
  · rw [if_pos ⟨hcover j hj, hj⟩]
  · rw [if_neg (by tauto), List.getElem?_replicate, if_neg hj,
      List.getElem?_eq_none (by omega)]
    rfl

/-- As long as some promise of the batch has not settled, the collected
array is not yet the full result sequence: the batch completes only after
every request has settled. -/
theorem settleAll_missing {α : Type} (vals : List α) (order : List Nat)
    (i : Nat) (hi : i < vals.length) (hmem : i ∉ order) :
    settleAll vals order ≠ vals.map some := by
  intro heq
  have h1 : (settleAll vals order)[i]? = (vals.map some)[i]? := by rw [heq]
  rw [settleAll, settle_foldl_getElem? vals order _ i (by simp),
    if_neg (by tauto), List.getElem?_replicate, if_pos hi,
    List.getElem?_map, List.getElem?_eq_getElem hi] at h1
  simp at h1

/-- C3: in delegated mode the batch is order-invariant — for any
completion order in which all requests settle, the collected array equals
the index-aligned sequence of per-input calls; slot `i` of both the
result sequence and the exchange-record sequence comes from input `i`;
and for any completion order in which some request has not settled, the
batch is not yet complete. -/
theorem claim_C3_batch_order_invariance (inputs : List String)
    (apiKey : String) (worlds : Nat → RemoteWorld) (order : List Nat)
    (hcover : ∀ i, i < inputs.length → i ∈ order) :
    settleAll (runRemoteBatch inputs apiKey worlds) order =
      (runRemoteBatch inputs apiKey worlds).map some ∧
    (∀ i, (processTranslationAI inputs apiKey worlds).1[i]? =
        (inputs[i]?).map
          (fun input => (callGeminiAPI input apiKey (worlds i)).1) ∧
      (processTranslationAI inputs apiKey worlds).2[i]? =
        (inputs[i]?).map
          (fun input => (callGeminiAPI input apiKey (worlds i)).2)) ∧
    (∀ order2, (∃ i, i < inputs.length ∧ i ∉ order2) →
      settleAll (runRemoteBatch inputs apiKey worlds) order2 ≠
        (runRemoteBatch inputs apiKey worlds).map some) := by
  have hlen : (runRemoteBatch inputs apiKey worlds).length = inputs.length :=
    runFrom_length apiKey worlds 0 inputs
  refine ⟨?_, ?_, ?_⟩
  · apply settleAll_covers
    intro i hi
    rw [hlen] at hi
    exact hcover i hi
  · intro i
    constructor
    · show ((runRemoteBatch inputs apiKey worlds).map Prod.fst)[i]? = _
      rw [List.getElem?_map, runRemoteBatch,
        runFrom_getElem? apiKey worlds inputs 0 i, Nat.zero_add]
      cases inputs[i]? <;> rfl
    · show ((runRemoteBatch inputs apiKey worlds).map Prod.snd)[i]? = _
      rw [List.getElem?_map, runRemoteBatch,
        runFrom_getElem? apiKey worlds inputs 0 i, Nat.zero_add]
      cases inputs[i]? <;> rfl
  · rintro order2 ⟨i, hi, hmem⟩
    exact settleAll_missing _ order2 i (by rw [hlen]; exact hi) hmem

/-- Witness for C3: a two-element batch collected in reversed completion
order equals the index-aligned sequence, and with only request 1 settled
the batch is not complete. -/
theorem claim_C3_witness :
    (settleAll (runRemoteBatch ["a", "b"] "k" (fun _ => RemoteWorld.netError "x"))
        [1, 0] =
      (runRemoteBatch ["a", "b"] "k" (fun _ => RemoteWorld.netError "x")).map some) ∧
    (settleAll (runRemoteBatch ["a", "b"] "k" (fun _ => RemoteWorld.netError "x"))
        [1] ≠
      (runRemoteBatch ["a", "b"] "k" (fun _ => RemoteWorld.netError "x")).map some) :=
  ⟨(claim_C3_batch_order_invariance ["a", "b"] "k"
      (fun _ => RemoteWorld.netError "x") [1, 0] (by decide)).1,
   (claim_C3_batch_order_invariance ["a", "b"] "k"
      (fun _ => RemoteWorld.netError "x") [1, 0] (by decide)).2.2 [1]
     ⟨0, by decide, by decide⟩⟩

/-- C7: a failing remote call for one input does not abort the batch and
does not change any other slot — the result and exchange sequences keep
the full input length, every slot other than the failing one is unchanged
when only that slot's world differs, and the failing slot resolves to an
error result. -/
theorem claim_C7_failure_isolated (inputs : List String) (apiKey : String)
    (worlds worlds2 : Nat → RemoteWorld) (j : Nat) (inputJ msg : String)
    (hagree : ∀ i, i ≠ j → worlds2 i = worlds i)
    (hj : inputs[j]? = some inputJ)
    (hfail : callGeminiBody inputJ (worlds2 j) = .error msg) :
    (processTranslationAI inputs apiKey worlds2).1.length = inputs.length ∧
    (processTranslationAI inputs apiKey worlds2).2.length = inputs.length ∧
    (∀ i, i ≠ j →
      (processTranslationAI inputs apiKey worlds2).1[i]? =
        (processTranslationAI inputs apiKey worlds).1[i]? ∧
      (processTranslationAI inputs apiKey worlds2).2[i]? =
        (processTranslationAI inputs apiKey worlds).2[i]?) ∧
    (∃ r, (processTranslationAI inputs apiKey worlds2).1[j]? = some r ∧
      r.isError = true ∧ r.label = some "API Error") := by
  refine ⟨?_, ?_, ?_, ?_⟩
  · show ((runRemoteBatch inputs apiKey worlds2).map Prod.fst).length = _
    rw [List.length_map, runRemoteBatch, runFrom_length]
  · show ((runRemoteBatch inputs apiKey worlds2).map Prod.snd).length = _
    rw [List.length_map, runRemoteBatch, runFrom_length]
  · intro i hi
    constructor
    · show ((runRemoteBatch inputs apiKey worlds2).map Prod.fst)[i]? =
        ((runRemoteBatch inputs apiKey worlds).map Prod.fst)[i]?
      rw [List.getElem?_map, List.getElem?_map, runRemoteBatch, runRemoteBatch,
        runFrom_getElem? apiKey worlds2 inputs 0 i,
        runFrom_getElem? apiKey worlds inputs 0 i, Nat.zero_add,
        hagree i hi]
    · show ((runRemoteBatch inputs apiKey worlds2).map Prod.snd)[i]? =
        ((runRemoteBatch inputs apiKey worlds).map Prod.snd)[i]?
      rw [List.getElem?_map, List.getElem?_map, runRemoteBatch, runRemoteBatch,
        runFrom_getElem? apiKey worlds2 inputs 0 i,
        runFrom_getElem? apiKey worlds inputs 0 i, Nat.zero_add,
        hagree i hi]
  · refine ⟨(callGeminiAPI inputJ apiKey (worlds2 j)).1, ?_, ?_, ?_⟩
    · show ((runRemoteBatch inputs apiKey worlds2).map Prod.fst)[j]? = _
      rw [List.getElem?_map, runRemoteBatch,
        runFrom_getElem? apiKey worlds2 inputs 0 j, Nat.zero_add, hj]
      rfl
    · unfold callGeminiAPI
      rw [hfail]
    · unfold callGeminiAPI
      rw [hfail]

/-- Witness for C7: in a two-input batch whose second request fails while
the first succeeds, the first slot is unchanged and the second resolves
to an error result. -/
theorem claim_C7_witness :
    (processTranslationAI ["a", "b"] "k"
        (fun i => if i = 1 then RemoteWorld.netError "boom"
          else RemoteWorld.response sampleReplyData
            (fun _ => .ok ⟨some "X", some "Y", some "Users"⟩))).1.length = 2 ∧
    (processTranslationAI ["a", "b"] "k"
        (fun i => if i = 1 then RemoteWorld.netError "boom"
          else RemoteWorld.response sampleReplyData
            (fun _ => .ok ⟨some "X", some "Y", some "Users"⟩))).2.length = 2 ∧
    (∀ i, i ≠ 1 →
      (processTranslationAI ["a", "b"] "k"
          (fun i => if i = 1 then RemoteWorld.netError "boom"
            else RemoteWorld.response sampleReplyData
              (fun _ => .ok ⟨some "X", some "Y", some "Users"⟩))).1[i]? =
        (processTranslationAI ["a", "b"] "k"
          (fun _ => RemoteWorld.response sampleReplyData
            (fun _ => .ok ⟨some "X", some "Y", some "Users"⟩))).1[i]? ∧
      (processTranslationAI ["a", "b"] "k"
          (fun i => if i = 1 then RemoteWorld.netError "boom"
            else RemoteWorld.response sampleReplyData
              (fun _ => .ok ⟨some "X", some "Y", some "Users"⟩))).2[i]? =
        (processTranslationAI ["a", "b"] "k"
          (fun _ => RemoteWorld.response sampleReplyData
            (fun _ => .ok ⟨some "X", some "Y", some "Users"⟩))).2[i]?) ∧
    (∃ r, (processTranslationAI ["a", "b"] "k"
        (fun i => if i = 1 then RemoteWorld.netError "boom"
          else RemoteWorld.response sampleReplyData
            (fun _ => .ok ⟨some "X", some "Y", some "Users"⟩))).1[1]? = some r ∧
      r.isError = true ∧ r.label = some "API Error") :=
  claim_C7_failure_isolated ["a", "b"] "k"
    (fun _ => RemoteWorld.response sampleReplyData
      (fun _ => .ok ⟨some "X", some "Y", some "Users"⟩))
    (fun i => if i = 1 then RemoteWorld.netError "boom"
      else RemoteWorld.response sampleReplyData
        (fun _ => .ok ⟨some "X", some "Y", some "Users"⟩))
    1 "b" "boom"
    (fun i hi => by simp [hi]) (by decide) rfl

/-- C10: the result-screen reset clears the input queue, the result
sequence and the debug-log sequence and returns to step 0, while leaving
the selected mode, the in-memory credential and the session-scoped
credential store unchanged. -/
theorem claim_C10_reset_frame (st : AppState) (store : SessionStore) :
    (resetToStart st store).1.inputs = [] ∧
    (resetToStart st store).1.aiResults = [] ∧
    (resetToStart st store).1.debugLogs = [] ∧
    (resetToStart st store).1.step = 0 ∧
    (resetToStart st store).1.mode = st.mode ∧
    (resetToStart st store).1.apiKey = st.apiKey ∧
    (resetToStart st store).2 = store :=
  ⟨rfl, rfl, rfl, rfl, rfl, rfl, rfl⟩

end GovPM
